import Mathlib

/-!
# Mini Battle Arena — verification of the combat core

A shallow embedding of the combat core of the Mini Battle Arena repository:
the per-combatant state machine (`js/character system`), the physics engine
(`js/app.js`, `PhysicsEngine`), and the match orchestration (`GameEngine`,
`BattleSystem`).  JavaScript numbers are modelled as exact rationals (`ℚ`);
Euclidean-distance comparisons `sqrt d ≤ r` are modelled by the equivalent
`0 ≤ r ∧ d ≤ r^2`.  Deferred `setTimeout` callbacks (end-of-attack reset,
end-of-dash reset, end-of-rage reset) fire outside the synchronous calls
modelled here and are therefore not part of the state transitions below,
matching the immediate post-call state of the source.
-/

/-- Character archetypes (the `type` string of a `Character`). -/
inductive CharType where
  | base
  | ninja
  | knight
  | mage
  | berserker
deriving DecidableEq

/-- An attack ability record (`damage`, `range`, `cooldown`, optional
`knockback`/`stun`/`teleport`/`projectile` keys; an absent numeric key is
falsy in JS and is modelled as `0`). -/
structure Ability where
  damage : ℚ
  range : ℚ
  cooldown : ℚ
  knockback : ℚ := 0
  stun : ℚ := 0
  teleport : Bool := false
  projectile : Bool := false
deriving DecidableEq

/-- The `block` ability record. -/
structure BlockAbility where
  reduction : ℚ
  cooldown : ℚ
deriving DecidableEq

/-- The `dash` ability record. -/
structure DashAbility where
  speed : ℚ
  duration : ℚ
  cooldown : ℚ
deriving DecidableEq

/-- The berserker `rage` ability record. -/
structure RageAbility where
  duration : ℚ
  cooldown : ℚ
  damageMultiplier : ℚ
  speedMultiplier : ℚ
deriving DecidableEq

/-- The abilities object of a character; the special abilities are present
only on the matching archetype (absent keys are `none`). No archetype ever
defines a `heavyAttack` key. -/
structure Abilities where
  lightAttack : Ability
  block : BlockAbility
  dash : DashAbility
  shadowStrike : Option Ability := none
  shieldBash : Option Ability := none
  fireball : Option Ability := none
  rage : Option RageAbility := none
deriving DecidableEq

/-- A combatant together with its physics body.  The source links a
`Character` and its engine body bidirectionally; we merge them into one
record: `x`/`y`/`vx`/`vy` are the character's mirror fields (refreshed from
the body by `updatePosition` each tick) and `bodyX`/`bodyY`/`bodyVX`/`bodyVY`
are the body's own fields that the engine and `move`/`dash`/knockback write.
`rageDuration`/`rageCooldown` start undefined in JS (falsy), modelled as 0.
Animation bookkeeping and visual fields carry no combat state and are
omitted. -/
structure Character where
  id : String
  ctype : CharType
  x : ℚ
  y : ℚ
  width : ℚ
  height : ℚ
  vx : ℚ
  vy : ℚ
  bodyX : ℚ
  bodyY : ℚ
  bodyVX : ℚ
  bodyVY : ℚ
  grounded : Bool := false
  isGrounded : Bool := false
  maxHealth : ℚ
  health : ℚ
  speed : ℚ
  defense : ℚ
  facingRight : Bool := true
  isAttacking : Bool := false
  isBlocking : Bool := false
  isDashing : Bool := false
  isStunned : Bool := false
  isDead : Bool := false
  rageActive : Bool := false
  attackCooldown : ℚ := 0
  blockCooldown : ℚ := 0
  dashCooldown : ℚ := 0
  stunDuration : ℚ := 0
  invulnerabilityTime : ℚ := 0
  rageDuration : ℚ := 0
  rageCooldown : ℚ := 0
  abilities : Abilities
deriving DecidableEq

/-- Source `Character.getDamageMultiplier`: ×rage damage multiplier for a raging
berserker, else 1.  (A berserker always carries a `rage` ability; an absent
one is modelled as multiplier 1.) -/
def Character.getDamageMultiplier (c : Character) : ℚ :=
  if c.ctype = CharType.berserker ∧ c.rageActive = true then
    match c.abilities.rage with
    | some r => r.damageMultiplier
    | none => 1
  else 1

/-- Source `Character.getSpeedMultiplier`: ×rage speed multiplier for a raging
berserker, else 1. -/
def Character.getSpeedMultiplier (c : Character) : ℚ :=
  if c.ctype = CharType.berserker ∧ c.rageActive = true then
    match c.abilities.rage with
    | some r => r.speedMultiplier
    | none => 1
  else 1

/-- Source `Character.updateTimers`: the five timers decrement by `dt` and clamp at
0 with `Math.max`; `isStunned` is cleared when the clamped stun timer has
reached 0. -/
def Character.updateTimers (c : Character) (dt : ℚ) : Character :=
  let sd := max 0 (c.stunDuration - dt)
  { c with
    attackCooldown := max 0 (c.attackCooldown - dt)
    blockCooldown := max 0 (c.blockCooldown - dt)
    dashCooldown := max 0 (c.dashCooldown - dt)
    stunDuration := sd
    invulnerabilityTime := max 0 (c.invulnerabilityTime - dt)
    isStunned := if sd ≤ 0 then false else c.isStunned }

/-- Source `Character.updatePosition`: copy the physics body's position/velocity
into the character's mirror fields. -/
def Character.updatePosition (c : Character) : Character :=
  { c with x := c.bodyX, y := c.bodyY, vx := c.bodyVX, vy := c.bodyVY,
           isGrounded := c.grounded }

/-- Source `Character.updateRage`: each rage timer decrements by `dt` when
positive — with no clamp at 0 (unlike `updateTimers`). -/
def Character.updateRage (c : Character) (dt : ℚ) : Character :=
  { c with
    rageDuration := if c.rageDuration > 0 then c.rageDuration - dt else c.rageDuration
    rageCooldown := if c.rageCooldown > 0 then c.rageCooldown - dt else c.rageCooldown }

/-- Source `Character.updateAbilities`: only the berserker branch of the switch
does anything. -/
def Character.updateAbilities (c : Character) (dt : ℚ) : Character :=
  if c.ctype = CharType.berserker then c.updateRage dt else c

/-- Source `Character.die`: set the dead flag, zero health and the body's
velocity. -/
def Character.die (c : Character) : Character :=
  { c with isDead := true, health := 0, bodyVX := 0, bodyVY := 0 }

/-- Source `Character.update(deltaTime)`: early-return when dead; otherwise run
timers, position mirroring, abilities, then the death check. -/
def Character.update (c : Character) (dt : ℚ) : Character :=
  if c.isDead = true then c
  else
    let c1 := c.updateTimers dt
    let c2 := c1.updatePosition
    let c3 := c2.updateAbilities dt
    if c3.health ≤ 0 ∧ c3.isDead = false then c3.die else c3

/-- Source `Character.takeDamage(amount)`: no-op while invulnerable or dead;
otherwise clamp health at 0 and start the 0.2 s invulnerability window. -/
def Character.takeDamage (c : Character) (amount : ℚ) : Character :=
  if c.invulnerabilityTime > 0 ∨ c.isDead = true then c
  else { c with health := max 0 (c.health - amount), invulnerabilityTime := 1/5 }

/-- Source `Character.heal(amount)`: no-op when dead; otherwise clamp health at
`maxHealth`. -/
def Character.heal (c : Character) (amount : ℚ) : Character :=
  if c.isDead = true then c
  else { c with health := min c.maxHealth (c.health + amount) }

/-- Source `Character.move(deltaX, deltaY)`: rejected while stunned, dashing or
dead; otherwise write the body's horizontal velocity and update facing
(the Y velocity is left to gravity). -/
def Character.move (c : Character) (dx : ℚ) (_dy : ℚ) : Character :=
  if c.isStunned = true ∨ c.isDashing = true ∨ c.isDead = true then c
  else
    let ms := c.speed * c.getSpeedMultiplier
    { c with
      bodyVX := dx * ms
      facingRight := if dx > 1/10 then true
                     else if dx < -(1/10) then false
                     else c.facingRight }

/-- Source `Character.stun(duration)`: set the stun flag and timer and damp the
body's horizontal velocity to 10 %. -/
def Character.stun (c : Character) (duration : ℚ) : Character :=
  { c with isStunned := true, stunDuration := duration, bodyVX := c.bodyVX * (1/10) }

/-- Source `Character.startBlock`: gated by block cooldown / stunned / dead;
returns whether the action was accepted. -/
def Character.startBlock (c : Character) : Character × Bool :=
  if c.blockCooldown > 0 ∨ c.isStunned = true ∨ c.isDead = true then (c, false)
  else ({ c with isBlocking := true }, true)

/-- Source `Character.stopBlock`: entirely unguarded — clears the blocking flag
and restarts the block cooldown, in any state. -/
def Character.stopBlock (c : Character) : Character :=
  { c with isBlocking := false, blockCooldown := c.abilities.block.cooldown }

/-- Source `Character.dash(directionX, directionY)`: gated by dash cooldown /
stunned / dead; sets the body velocity to the dash burst and starts the
dash cooldown. -/
def Character.dash (c : Character) (dirX dirY : ℚ) : Character × Bool :=
  if c.dashCooldown > 0 ∨ c.isStunned = true ∨ c.isDead = true then (c, false)
  else
    let ds := c.abilities.dash.speed * c.getSpeedMultiplier
    ({ c with
        isDashing := true
        bodyVX := dirX * ds
        bodyVY := dirY * ds * (1/2)
        dashCooldown := c.abilities.dash.cooldown }, true)

/-- Source `Character.dealDamage(target, ability)`: skip an invulnerable target;
damage = base × attacker multiplier, ×(1 − block reduction) if the target
blocks, minus flat defense, floored at 1; apply it via `takeDamage`; apply
knockback (`applyImpulse(kx, -50)`) only when the ability specifies a
knockback and the target is not blocking; apply stun if specified.  Returns
the updated target and the impulse applied to its body, if any. -/
def Character.dealDamage (a t : Character) (ab : Ability) :
    Character × Option (ℚ × ℚ) :=
  if t.invulnerabilityTime > 0 then (t, none)
  else
    let d0 := ab.damage * a.getDamageMultiplier
    let d1 := if t.isBlocking = true then d0 * (1 - t.abilities.block.reduction) else d0
    let dmg := max 1 (d1 - t.defense)
    let t1 := t.takeDamage dmg
    let step2 : Character × Option (ℚ × ℚ) :=
      if ab.knockback ≠ 0 ∧ t.isBlocking = false then
        let kx := if a.facingRight then ab.knockback else -ab.knockback
        ({ t1 with bodyVX := t1.bodyVX + kx, bodyVY := t1.bodyVY - 50 },
         some (kx, -50))
      else (t1, none)
    let t3 := if ab.stun ≠ 0 then step2.1.stun ab.stun else step2.1
    (t3, step2.2)

/-- A physics-engine body (`PhysicsEngine.createBody`), with the fields the
collision pipeline reads. -/
structure PBody where
  id : String
  x : ℚ
  y : ℚ
  width : ℚ
  height : ℚ
  vx : ℚ := 0
  vy : ℚ := 0
  mass : ℚ := 1
  restitution : ℚ := 3/10
  friction : ℚ := 4/5
  isStatic : Bool := false
  isTrigger : Bool := false
  layer : String := "default"
deriving DecidableEq

/-- A body's center X, as computed throughout the engine. -/
def centerX (b : PBody) : ℚ := b.x + b.width / 2

/-- A body's center Y. -/
def centerY (b : PBody) : ℚ := b.y + b.height / 2

/-- Squared Euclidean distance between two points. -/
def distSq (x1 y1 x2 y2 : ℚ) : ℚ := (x1 - x2) ^ 2 + (y1 - y2) ^ 2

/-- The engine's radius test `sqrt((cx-x)^2+(cy-y)^2) ≤ radius`, stated
without square roots: for a nonnegative distance this is exactly
`0 ≤ radius ∧ distance² ≤ radius²`. -/
def withinRadius (x y radius : ℚ) (b : PBody) : Bool :=
  decide (0 ≤ radius ∧ distSq (centerX b) (centerY b) x y ≤ radius ^ 2)

/-- Source `PhysicsEngine.getBodiesInRadius(x, y, radius, layer)`: all stored
bodies passing the optional layer filter whose center lies within `radius`
of `(x, y)`. -/
def getBodiesInRadius (x y radius : ℚ) (layer : Option String)
    (bodies : List PBody) : List PBody :=
  bodies.filter (fun b =>
    (match layer with
     | some l => decide (b.layer = l)
     | none => true) && withinRadius x y radius b)

/-- The collision data returned by
`PhysicsEngine.calculateCollisionData` (the unused `distance` field is
omitted): overlap along the narrower axis and the axis-aligned
minimum-translation normal. -/
structure Collision where
  overlap : ℚ
  normalX : ℚ
  normalY : ℚ
deriving DecidableEq

/-- Source `PhysicsEngine.calculateCollisionData(bodyA, bodyB)`. -/
def calculateCollisionData (a b : PBody) : Collision :=
  let dx := centerX b - centerX a
  let dy := centerY b - centerY a
  let overlapX := (a.width + b.width) / 2 - |dx|
  let overlapY := (a.height + b.height) / 2 - |dy|
  if overlapX < overlapY then
    { overlap := overlapX, normalX := if dx < 0 then -1 else 1, normalY := 0 }
  else
    { overlap := overlapY, normalX := 0, normalY := if dy < 0 then -1 else 1 }

/-- Source `PhysicsEngine.separateBodies(bodyA, bodyB, collision)`: each non-static
body is displaced along the collision normal; the share of the overlap each
absorbs is the other body's mass fraction, or the full overlap when the
other body is static. -/
def separateBodies (a b : PBody) (col : Collision) : PBody × PBody :=
  let totalMass := a.mass + b.mass
  let separationA := if b.isStatic = true then col.overlap
                     else (b.mass / totalMass) * col.overlap
  let separationB := if a.isStatic = true then col.overlap
                     else (a.mass / totalMass) * col.overlap
  let a2 := if a.isStatic = false then
      { a with x := a.x - separationA * col.normalX,
               y := a.y - separationA * col.normalY }
    else a
  let b2 := if b.isStatic = false then
      { b with x := b.x + separationB * col.normalX,
               y := b.y + separationB * col.normalY }
    else b
  (a2, b2)

/-- The trigger-side collision bookkeeping of one (trigger, other) pair:
the trigger body's `collidingWith` id set. -/
structure TriggerState where
  collidingWith : List String
deriving DecidableEq

/-- One engine tick of `PhysicsEngine` trigger processing for a fixed
(trigger, other) pair.  `resolveCollision` dispatches overlapping pairs
with a trigger to `handleTriggerCollision`, which fires `onTriggerEnter`
and records the id only when it is not yet in `collidingWith`, and never
moves either body.  `cleanupCollisions` (the only routine that prunes
`collidingWith` after the bodies separate) is defined in the source but
never invoked anywhere in the repository, so a non-overlapping tick leaves
the set unchanged.  Returns the new state and whether `onTriggerEnter`
fired this tick. -/
def handleTriggerCollision (ts : TriggerState) (otherId : String)
    (overlapping : Bool) : TriggerState × Bool :=
  if overlapping = true then
    if ts.collidingWith.contains otherId then (ts, false)
    else ({ collidingWith := otherId :: ts.collidingWith }, true)
  else (ts, false)

/-- Run trigger processing over a sequence of ticks, given for each tick
whether the pair geometrically overlaps; returns, per tick, whether the
enter notification fired. -/
def runTriggerTicks (ts : TriggerState) (otherId : String) :
    List Bool → List Bool
  | [] => []
  | o :: rest =>
    let r := handleTriggerCollision ts otherId o
    r.2 :: runTriggerTicks r.1 otherId rest

/-- The physics body a character registers
(`Character.createPhysicsBody`): layer `"character"`, sharing the
character's body position/velocity and extents. -/
def Character.toBody (c : Character) : PBody :=
  { id := c.id, x := c.bodyX, y := c.bodyY, width := c.width,
    height := c.height, vx := c.bodyVX, vy := c.bodyVY, mass := 1,
    restitution := 1/10, friction := 4/5, layer := "character" }

/-- The attack hitbox X of `Character.attack`: the forward-facing rectangle
starts at the attacker's leading edge (or `range` to the left when facing
left). -/
def attackRectX (c : Character) (ab : Ability) : ℚ :=
  if c.facingRight then c.x + c.width else c.x - ab.range

/-- The attack hitbox Y (the attacker's own Y); the hitbox is
`range × height` in size. -/
def attackRectY (c : Character) : ℚ := c.y

/-- X center of the attack hitbox, the point actually passed to
`getBodiesInRadius`. -/
def attackCenterX (c : Character) (ab : Ability) : ℚ :=
  attackRectX c ab + ab.range / 2

/-- Y center of the attack hitbox. -/
def attackCenterY (c : Character) : ℚ := attackRectY c + c.height / 2

/-- The bodies an attack resolves damage against: `Character.attack`
queries `getBodiesInRadius(rectCenter, range/2, layer "character")` — a
disc, not the rectangle — and then skips the attacker itself. -/
def attackHitBodies (c : Character) (ab : Ability)
    (bodies : List PBody) : List PBody :=
  (getBodiesInRadius (attackCenterX c ab) (attackCenterY c) (ab.range / 2)
      (some "character") bodies).filter (fun b => decide (b.id ≠ c.id))

/-- Source `Character.attack(ability)` over a world of characters (the registered
game objects): set `isAttacking`, and `dealDamage` every other character
whose body center lies in the query disc.  The deferred 400 ms
`isAttacking` reset is a `setTimeout` outside this call. -/
def Character.attack (c : Character) (world : List Character)
    (ab : Ability) : Character × List Character :=
  let c1 := { c with isAttacking := true }
  let world2 := world.map (fun t =>
    if t.id ≠ c.id ∧
        withinRadius (attackCenterX c ab) (attackCenterY c) (ab.range / 2)
          t.toBody = true
    then (Character.dealDamage c1 t ab).1
    else t)
  (c1, world2)

/-- Source `Character.lightAttack`: gated by attack cooldown / stunned / dead;
on success performs the attack and starts the light cooldown.  Returns
(attacker, world, accepted). -/
def Character.lightAttack (c : Character) (world : List Character) :
    Character × List Character × Bool :=
  if c.attackCooldown > 0 ∨ c.isStunned = true ∨ c.isDead = true then
    (c, world, false)
  else
    let ab := c.abilities.lightAttack
    let r := c.attack world ab
    ({ r.1 with attackCooldown := ab.cooldown }, r.2, true)

/-- Source `Character.heavyAttack`: same gate; reuses the light ability (no
archetype defines `heavyAttack`) with damage ×1.5 and cooldown ×2. -/
def Character.heavyAttack (c : Character) (world : List Character) :
    Character × List Character × Bool :=
  if c.attackCooldown > 0 ∨ c.isStunned = true ∨ c.isDead = true then
    (c, world, false)
  else
    let ab := c.abilities.lightAttack
    let r := c.attack world
      { ab with damage := ab.damage * (3/2), cooldown := ab.cooldown * 2 }
    ({ r.1 with attackCooldown := ab.cooldown * 2 }, r.2, true)

/-- Source `Character.shadowStrike` (ninja): teleport next to the first living
other character, then attack. -/
def Character.shadowStrike (c : Character) (world : List Character) :
    Character × List Character × Bool :=
  match c.abilities.shadowStrike with
  | none => (c, world, false)
  | some ab =>
    if c.attackCooldown > 0 then (c, world, false)
    else
      match world.filter (fun o => decide (o.id ≠ c.id ∧ o.isDead = false)) with
      | [] => (c, world, false)
      | target :: _ =>
        let c1 := if ab.teleport then
            let nx := target.x + (if c.facingRight then -60 else 60)
            { c with x := nx, y := target.y, bodyX := nx, bodyY := target.y }
          else c
        let r := c1.attack world ab
        ({ r.1 with attackCooldown := ab.cooldown }, r.2, true)

/-- Source `Character.shieldBash` (knight). -/
def Character.shieldBash (c : Character) (world : List Character) :
    Character × List Character × Bool :=
  match c.abilities.shieldBash with
  | none => (c, world, false)
  | some ab =>
    if c.attackCooldown > 0 then (c, world, false)
    else
      let r := c.attack world ab
      ({ r.1 with attackCooldown := ab.cooldown }, r.2, true)

/-- Source `Character.fireball` (mage): spawns a deferred projectile game object
(outside the combatant state) and starts the cooldown. -/
def Character.fireball (c : Character) (world : List Character) :
    Character × List Character × Bool :=
  match c.abilities.fireball with
  | none => (c, world, false)
  | some ab =>
    if c.attackCooldown > 0 then (c, world, false)
    else ({ c with attackCooldown := ab.cooldown }, world, true)

/-- Source `Character.rage` (berserker): gated on the rage being inactive and off
cooldown; activates the buff and starts its timers (the deferred
deactivation is a `setTimeout`). -/
def Character.rage (c : Character) : Character × Bool :=
  match c.abilities.rage with
  | none => (c, false)
  | some r =>
    if c.rageActive = true ∨ c.rageCooldown > 0 then (c, false)
    else ({ c with rageActive := true, rageDuration := r.duration,
                   rageCooldown := r.cooldown }, true)

/-- Source `Character.specialAttack`: rejected while stunned or dead, then
dispatches on the archetype. -/
def Character.specialAttack (c : Character) (world : List Character) :
    Character × List Character × Bool :=
  if c.isStunned = true ∨ c.isDead = true then (c, world, false)
  else
    match c.ctype with
    | CharType.ninja => c.shadowStrike world
    | CharType.knight => c.shieldBash world
    | CharType.mage => c.fireball world
    | CharType.berserker =>
        let r := c.rage
        (r.1, world, r.2)
    | CharType.base => c.lightAttack world

/-- The possible winners recorded by `GameEngine.endBattle`. -/
inductive Winner where
  | player
  | opponent
  | draw
deriving DecidableEq

/-- The game-engine state the driving loop touches.  After
`BattleSystem.startBattle` the `gameObjects` map holds exactly the two
combatants: `loadArena` registers the arena object first, but
`gameEngine.reset()` — called afterwards — clears the map before `player`
and `opponent` are added, so the arena (hazard scheduler) is not among the
updated objects.  `PhysicsEngine.update` has no caller anywhere in the
repository, so physics bodies are not part of the loop's mutable state
transitions.  Camera shake and particles carry no combat state and are
omitted. -/
structure GameState where
  isPlaying : Bool
  isPaused : Bool := false
  timeRemaining : ℚ
  winner : Option Winner := none
  player : Character
  opponent : Character
deriving DecidableEq

/-- Source `GameEngine.endBattle`: stop play and record the winner by comparing
the two combatants' health, a draw on exact tie. -/
def GameEngine.endBattle (s : GameState) : GameState :=
  { s with
    isPlaying := false
    winner := some (if s.player.health > s.opponent.health then Winner.player
                    else if s.opponent.health > s.player.health then Winner.opponent
                    else Winner.draw) }

/-- Source `GameEngine.update(deltaTime)`: update each registered game object in
insertion order (player then opponent), then advance the countdown and end
the battle when it reaches 0. -/
def GameEngine.update (s : GameState) (dt : ℚ) : GameState :=
  let s1 := { s with player := s.player.update dt,
                     opponent := s.opponent.update dt }
  if s.isPlaying = true ∧ s.timeRemaining > 0 then
    let t := s.timeRemaining - dt
    if t ≤ 0 then GameEngine.endBattle { s1 with timeRemaining := 0 }
    else { s1 with timeRemaining := t }
  else s1

/-- One iteration of `GameEngine.gameLoop`: cap the elapsed time at 1/30 s
and, unless paused, run `GameEngine.update` (rendering and FPS accounting
omitted). -/
def gameLoopStep (s : GameState) (elapsed : ℚ) : GameState :=
  let dt := min elapsed (1/30)
  if s.isPaused = true then s else GameEngine.update s dt

/-- One call in a combatant's damage/heal/tick history. -/
inductive CombatOp where
  | damage (amount : ℚ)
  | heal (amount : ℚ)
  | tick (dt : ℚ)
deriving DecidableEq

/-- Damage and heal amounts as produced by the source are nonnegative
(every attack deals at least 1, hazards deal fixed positive damage). -/
def CombatOp.nonnegAmount : CombatOp → Prop
  | CombatOp.damage a => 0 ≤ a
  | CombatOp.heal a => 0 ≤ a
  | CombatOp.tick _ => True

instance : DecidablePred CombatOp.nonnegAmount := by
  intro op
  cases op <;> simp only [CombatOp.nonnegAmount] <;> infer_instance

/-- Apply one call to a combatant. -/
def applyCombatOp (c : Character) : CombatOp → Character
  | CombatOp.damage amount => c.takeDamage amount
  | CombatOp.heal amount => c.heal amount
  | CombatOp.tick dt => c.update dt

/-- Apply a finite sequence of calls, first to last. -/
def runCombatOps (c : Character) : List CombatOp → Character
  | [] => c
  | op :: rest => runCombatOps (applyCombatOp c op) rest

/-- The spec's effective-damage formula: base × attacker multiplier,
×(1 − block.reduction) when the target blocks, minus flat defense, floored
at 1. -/
def specEffectiveDamage (a t : Character) (ab : Ability) : ℚ :=
  max 1 (ab.damage * a.getDamageMultiplier *
    (if t.isBlocking = true then 1 - t.abilities.block.reduction else 1) -
    t.defense)

/-- Spec-side description of the claimed hit window (C9): the
forward-facing rectangle of width `range` and height the attacker's
height, adjacent to the attacker.  Used only to compare the code's disc
query against the claimed rectangle. -/
def specRectContains (c : Character) (ab : Ability) (px py : ℚ) : Prop :=
  attackRectX c ab ≤ px ∧ px ≤ attackRectX c ab + ab.range ∧
  attackRectY c ≤ py ∧ py ≤ attackRectY c + c.height

/-- The default ability set (`getDefaultAbilities`, base archetype, with
the `gameConfig` numbers). -/
def baseAbilities : Abilities :=
  { lightAttack := { damage := 15, range := 50, cooldown := 1/2, knockback := 100 }
    block := { reduction := 1/2, cooldown := 1 }
    dash := { speed := 400, duration := 3/10, cooldown := 2 } }

/-- The berserker ability set (`getDefaultAbilities`, berserker case). -/
def berserkerAbilities : Abilities :=
  { baseAbilities with
    lightAttack := { damage := 25, range := 50, cooldown := 3/5, knockback := 100 }
    rage := some { duration := 5, cooldown := 15, damageMultiplier := 3/2,
                   speedMultiplier := 13/10 } }

/-- A freshly spawned base-archetype combatant at the player start
position (arena 800×600, spawn (150, 400), `gameConfig` stats). -/
def demoChar : Character :=
  { id := "player", ctype := CharType.base,
    x := 150, y := 400, width := 40, height := 60, vx := 0, vy := 0,
    bodyX := 150, bodyY := 400, bodyVX := 0, bodyVY := 0,
    maxHealth := 100, health := 100, speed := 200, defense := 0,
    abilities := baseAbilities }

/-- A blocking opponent with 2 flat defense, full health, no
invulnerability (C1 witness input). -/
def demoBlockingTarget : Character :=
  { demoChar with id := "opponent", bodyX := 610, x := 610,
                  isBlocking := true, defense := 2 }

/-- A short damage/tick/heal history (C2 witness input). -/
def demoOps : List CombatOp :=
  [CombatOp.damage 15, CombatOp.tick (1/60), CombatOp.heal 5,
   CombatOp.damage 200, CombatOp.tick 1]

/-- A dead combatant that was still blocking when it died (`takeDamage`
and `die` never clear `isBlocking`) — C3 counterexample input. -/
def deadBlockingChar : Character :=
  { demoChar with id := "opponent", health := 0, isDead := true,
                  isBlocking := true }

/-- A combatant whose health just hit 0 this tick: `takeDamage` set the
0.2 s invulnerability window but `isDead` is only set by the next
`update` — C3 counterexample input. -/
def justKilledChar : Character :=
  { demoChar with health := 0, invulnerabilityTime := 1/5 }

/-- A living berserker whose rage cooldown is 1 s (C5 counterexample
input). -/
def demoBerserker : Character :=
  { demoChar with id := "opponent", ctype := CharType.berserker,
                  abilities := berserkerAbilities, rageCooldown := 1 }

/-- A running match state whose player body has velocity 100 px/s (C4
failing input). -/
def demoLoopState : GameState :=
  { isPlaying := true, timeRemaining := 30,
    player := { demoChar with bodyVX := 100 },
    opponent := { demoChar with id := "opponent", x := 610, bodyX := 610 } }

/-- A running match one tick from timeout, player at 85 HP and opponent
at 40 HP (C8 witness input). -/
def demoTimeoutState : GameState :=
  { isPlaying := true, timeRemaining := 1/2,
    player := { demoChar with health := 85 },
    opponent := { demoChar with id := "opponent", x := 610, bodyX := 610,
                                health := 40 } }

/-- Two overlapping non-static bodies of masses 1 and 3 (C6 witness
input). -/
def demoBodyA : PBody :=
  { id := "a", x := 100, y := 100, width := 40, height := 60, mass := 1 }

/-- Second C6 witness body. -/
def demoBodyB : PBody :=
  { id := "b", x := 132, y := 100, width := 40, height := 60, mass := 3 }

/-- An X-axis collision with overlap 8 (C6 witness input). -/
def demoCollision : Collision := { overlap := 8, normalX := 1, normalY := 0 }

/-- An attacker at the origin, facing right (C9 counterexample input):
its light-attack rectangle is [40, 90] × [0, 60] with center (65, 30). -/
def demoAttacker : Character :=
  { demoChar with x := 0, y := 0, bodyX := 0, bodyY := 0 }

/-- A character-layer body whose center (88, 58) lies inside the attack
rectangle [40, 90] × [0, 60] but at squared distance 1313 > 25² = 625
from its center (C9 counterexample input). -/
def demoCornerBody : PBody :=
  { id := "opponent", x := 68, y := 38, width := 40, height := 40,
    layer := "character" }

theorem updateTimers_health (c : Character) (dt : ℚ) :
    (c.updateTimers dt).health = c.health := rfl

theorem updateTimers_maxHealth (c : Character) (dt : ℚ) :
    (c.updateTimers dt).maxHealth = c.maxHealth := rfl

theorem updatePosition_health (c : Character) :
    c.updatePosition.health = c.health := rfl

theorem updatePosition_maxHealth (c : Character) :
    c.updatePosition.maxHealth = c.maxHealth := rfl

theorem updateRage_health (c : Character) (dt : ℚ) :
    (c.updateRage dt).health = c.health := rfl

theorem updateRage_maxHealth (c : Character) (dt : ℚ) :
    (c.updateRage dt).maxHealth = c.maxHealth := rfl

theorem updateAbilities_health (c : Character) (dt : ℚ) :
    (c.updateAbilities dt).health = c.health := by
  unfold Character.updateAbilities
  split <;> rfl

theorem updateAbilities_maxHealth (c : Character) (dt : ℚ) :
    (c.updateAbilities dt).maxHealth = c.maxHealth := by
  unfold Character.updateAbilities
  split <;> rfl

theorem die_health (c : Character) : c.die.health = 0 := rfl

theorem die_maxHealth (c : Character) : c.die.maxHealth = c.maxHealth := rfl

theorem update_health_bounds (c : Character) (dt : ℚ)
    (h0 : 0 ≤ c.health) (h1 : c.health ≤ c.maxHealth) :
    0 ≤ (c.update dt).health ∧ (c.update dt).health ≤ (c.update dt).maxHealth := by
  unfold Character.update
  split
  · exact ⟨h0, h1⟩
  · dsimp only
    split
    · simp only [die_health, die_maxHealth, updateAbilities_maxHealth,
        updatePosition_maxHealth, updateTimers_maxHealth, le_refl, true_and]
      exact le_trans h0 h1
    · simp only [updateAbilities_health, updatePosition_health,
        updateTimers_health, updateAbilities_maxHealth,
        updatePosition_maxHealth, updateTimers_maxHealth]
      exact ⟨h0, h1⟩

theorem takeDamage_health_bounds (c : Character) (amount : ℚ)
    (h0 : 0 ≤ c.health) (h1 : c.health ≤ c.maxHealth) (ha : 0 ≤ amount) :
    0 ≤ (c.takeDamage amount).health ∧
      (c.takeDamage amount).health ≤ (c.takeDamage amount).maxHealth := by
  unfold Character.takeDamage
  split
  · exact ⟨h0, h1⟩
  · refine ⟨le_max_left 0 _, ?_⟩
    simp only [max_le_iff]
    exact ⟨le_trans h0 h1, by linarith⟩

theorem heal_health_bounds (c : Character) (amount : ℚ)
    (h0 : 0 ≤ c.health) (h1 : c.health ≤ c.maxHealth) (ha : 0 ≤ amount) :
    0 ≤ (c.heal amount).health ∧
      (c.heal amount).health ≤ (c.heal amount).maxHealth := by
  unfold Character.heal
  split
  · exact ⟨h0, h1⟩
  · refine ⟨?_, min_le_left _ _⟩
    simp only [le_min_iff]
    exact ⟨le_trans h0 h1, by linarith⟩

theorem applyCombatOp_health_bounds (c : Character) (op : CombatOp)
    (h0 : 0 ≤ c.health) (h1 : c.health ≤ c.maxHealth)
    (hop : op.nonnegAmount) :
    0 ≤ (applyCombatOp c op).health ∧
      (applyCombatOp c op).health ≤ (applyCombatOp c op).maxHealth := by
  cases op with
  | damage amount => exact takeDamage_health_bounds c amount h0 h1 hop
  | heal amount => exact heal_health_bounds c amount h0 h1 hop
  | tick dt => exact update_health_bounds c dt h0 h1

/-- C2: for every combatant starting with health within bounds and every
finite sequence of `takeDamage` and `heal` calls with nonnegative amounts
(as the source always produces), interleaved with tick updates,
`0 ≤ health ≤ maxHealth` holds after every call — every prefix of a
sequence being itself a sequence, the bound after the whole run covers
each intermediate state. -/
theorem health_always_bounded (c : Character) (ops : List CombatOp)
    (h0 : 0 ≤ c.health) (h1 : c.health ≤ c.maxHealth)
    (hops : ∀ op ∈ ops, op.nonnegAmount) :
    0 ≤ (runCombatOps c ops).health ∧
      (runCombatOps c ops).health ≤ (runCombatOps c ops).maxHealth := by
  induction ops generalizing c with
  | nil => exact ⟨h0, h1⟩
  | cons op rest ih =>
    simp only [runCombatOps]
    have hop : op.nonnegAmount := hops op (List.mem_cons_self op rest)
    have hstep := applyCombatOp_health_bounds c op h0 h1 hop
    exact ih (applyCombatOp c op) hstep.1 hstep.2
      (fun o ho => hops o (List.mem_cons_of_mem op ho))

/-- C2 witness: the bound instantiated on a freshly spawned combatant and
a concrete damage/tick/heal history. -/
theorem health_always_bounded_witness :
    (0 ≤ demoChar.health ∧ demoChar.health ≤ demoChar.maxHealth ∧
      ∀ op ∈ demoOps, op.nonnegAmount) ∧
    (0 ≤ (runCombatOps demoChar demoOps).health ∧
      (runCombatOps demoChar demoOps).health ≤
        (runCombatOps demoChar demoOps).maxHealth) :=
  ⟨⟨by decide, by decide, by decide⟩,
    health_always_bounded demoChar demoOps (by decide) (by decide) (by decide)⟩

theorem stun_health (c : Character) (d : ℚ) : (c.stun d).health = c.health := rfl

/-- C1: a hit resolved by `dealDamage` against a target with a zero
invulnerability timer that is not dead applies exactly
`max 1 (base × attacker multiplier × (1 − block.reduction if blocking) −
defense)` (block reduction before the flat-defense subtraction, floored at
1, so every connecting hit deals at least 1); the target's health drops by
exactly that amount, clamped at 0, and a blocking target receives no
knockback impulse. -/
theorem dealDamage_floored_formula (a t : Character) (ab : Ability)
    (hinv : t.invulnerabilityTime = 0) (hdead : t.isDead = false) :
    1 ≤ specEffectiveDamage a t ab ∧
    ((a.dealDamage t ab).1).health =
      max 0 (t.health - specEffectiveDamage a t ab) ∧
    (t.isBlocking = true → (a.dealDamage t ab).2 = none) := by
  have hg : ¬ (t.invulnerabilityTime > 0) := by rw [hinv]; exact lt_irrefl 0
  refine ⟨le_max_left 1 _, ?_, ?_⟩
  · unfold Character.dealDamage specEffectiveDamage
    rw [if_neg hg]
    simp only [Character.takeDamage, Character.stun, hinv, hdead]
    norm_num
    split_ifs <;> simp_all
  · intro hb
    unfold Character.dealDamage
    rw [if_neg hg]
    simp [hb]

/-- C1 witness: a 15-damage blocked hit on a 2-defense full-health target:
15 × 1 × 0.5 − 2 = 5.5 damage, health 100 → 94.5. -/
theorem dealDamage_floored_formula_witness :
    (demoBlockingTarget.invulnerabilityTime = 0 ∧
      demoBlockingTarget.isDead = false ∧ demoBlockingTarget.isBlocking = true) ∧
    ((demoChar.dealDamage demoBlockingTarget baseAbilities.lightAttack).1).health =
      max 0 (demoBlockingTarget.health -
        specEffectiveDamage demoChar demoBlockingTarget baseAbilities.lightAttack) ∧
    (demoChar.dealDamage demoBlockingTarget baseAbilities.lightAttack).2 = none :=
  ⟨⟨rfl, rfl, rfl⟩,
    (dealDamage_floored_formula demoChar demoBlockingTarget
      baseAbilities.lightAttack rfl rfl).2.1,
    (dealDamage_floored_formula demoChar demoBlockingTarget
      baseAbilities.lightAttack rfl rfl).2.2 rfl⟩

/-- C3 counterexample: (a) `stopBlock` on a dead combatant that died while
blocking still clears the `isBlocking` state flag (and restarts the block
cooldown); (b) in the window after health hits 0 but before the next tick
update sets `isDead`, `move` still mutates the body velocity (only
`takeDamage` is suppressed, by the invulnerability window).  Both refute
the claim as stated. -/
theorem death_terminal_cex :
    (deadBlockingChar.isDead = true ∧ deadBlockingChar.isBlocking = true ∧
      deadBlockingChar.stopBlock.isBlocking = false) ∧
    (justKilledChar.health = 0 ∧ justKilledChar.isDead = false ∧
      justKilledChar.bodyVX = 0 ∧
      (justKilledChar.move 1 0).bodyVX = 200) := by
  refine ⟨⟨rfl, rfl, rfl⟩, rfl, rfl, rfl, ?_⟩
  simp [Character.move, Character.getSpeedMultiplier, justKilledChar,
    demoChar, baseAbilities]

/-- C3 (amended): once the `isDead` flag is set (which happens on the
first tick update after health reaches 0), `takeDamage`, `move`,
`lightAttack`, `heavyAttack`, `specialAttack`, `startBlock` and `dash` all
leave the combatant (and, for attacks, the world and the accepted flag)
entirely unchanged; `stopBlock` is the exception, and in the window
between health reaching 0 and that tick, only `takeDamage` is blocked —
by the 0.2 s invulnerability window (last conjunct). -/
theorem death_terminal_amended (c : Character) (w : List Character)
    (amt dx dy dirX dirY : ℚ) (h : c.isDead = true) :
    c.takeDamage amt = c ∧
    c.move dx dy = c ∧
    c.lightAttack w = (c, w, false) ∧
    c.heavyAttack w = (c, w, false) ∧
    c.specialAttack w = (c, w, false) ∧
    c.startBlock = (c, false) ∧
    c.dash dirX dirY = (c, false) ∧
    (∀ c2 : Character, c2.invulnerabilityTime > 0 → c2.takeDamage amt = c2) := by
  refine ⟨?_, ?_, ?_, ?_, ?_, ?_, ?_, ?_⟩
  · simp [Character.takeDamage, h]
  · simp [Character.move, h]
  · simp [Character.lightAttack, h]
  · simp [Character.heavyAttack, h]
  · simp [Character.specialAttack, h]
  · simp [Character.startBlock, h]
  · simp [Character.dash, h]
  · intro c2 hc2
    simp [Character.takeDamage, hc2]

/-- C3 witness: the amended theorem instantiated on a concrete dead
combatant. -/
theorem death_terminal_amended_witness :
    deadBlockingChar.isDead = true ∧
    deadBlockingChar.takeDamage 5 = deadBlockingChar ∧
    deadBlockingChar.move 1 0 = deadBlockingChar :=
  ⟨rfl, (death_terminal_amended deadBlockingChar [] 5 1 0 1 0 rfl).1,
    (death_terminal_amended deadBlockingChar [] 5 1 0 1 0 rfl).2.1⟩

/-- C5 counterexample: a living berserker with rage cooldown 1 s updated
with dt = 2 s ends with rage cooldown −1: `updateRage` decrements without
the `Math.max(0, …)` clamp that `updateTimers` applies, so a "cooldown
timer" is negative after an update. -/
theorem rage_cooldown_negative_cex :
    demoBerserker.isDead = false ∧ demoBerserker.rageCooldown = 1 ∧
    (demoBerserker.update 2).rageCooldown = -1 := by
  refine ⟨rfl, rfl, ?_⟩
  simp [Character.update, Character.updateTimers, Character.updatePosition,
    Character.updateAbilities, Character.updateRage, demoBerserker, demoChar,
    berserkerAbilities, baseAbilities]
  norm_num

theorem update_of_alive (c : Character) (dt : ℚ) (hdead : c.isDead = false) :
    c.update dt =
      if ((c.updateTimers dt).updatePosition.updateAbilities dt).health ≤ 0 ∧
          ((c.updateTimers dt).updatePosition.updateAbilities dt).isDead = false
      then ((c.updateTimers dt).updatePosition.updateAbilities dt).die
      else (c.updateTimers dt).updatePosition.updateAbilities dt := by
  unfold Character.update
  simp only [hdead, Bool.false_eq_true, if_false]

theorem updateAbilities_attackCooldown (c : Character) (dt : ℚ) :
    (c.updateAbilities dt).attackCooldown = c.attackCooldown := by
  unfold Character.updateAbilities Character.updateRage
  split <;> rfl

theorem updateAbilities_blockCooldown (c : Character) (dt : ℚ) :
    (c.updateAbilities dt).blockCooldown = c.blockCooldown := by
  unfold Character.updateAbilities Character.updateRage
  split <;> rfl

theorem updateAbilities_dashCooldown (c : Character) (dt : ℚ) :
    (c.updateAbilities dt).dashCooldown = c.dashCooldown := by
  unfold Character.updateAbilities Character.updateRage
  split <;> rfl

theorem updateAbilities_stunDuration (c : Character) (dt : ℚ) :
    (c.updateAbilities dt).stunDuration = c.stunDuration := by
  unfold Character.updateAbilities Character.updateRage
  split <;> rfl

theorem updateAbilities_invulnerabilityTime (c : Character) (dt : ℚ) :
    (c.updateAbilities dt).invulnerabilityTime = c.invulnerabilityTime := by
  unfold Character.updateAbilities Character.updateRage
  split <;> rfl

theorem updateAbilities_rageDuration (c : Character) (dt : ℚ) :
    (c.updateAbilities dt).rageDuration =
      (if c.ctype = CharType.berserker ∧ c.rageDuration > 0 then
        c.rageDuration - dt else c.rageDuration) := by
  unfold Character.updateAbilities Character.updateRage
  split_ifs <;> simp_all

theorem updateAbilities_rageCooldown (c : Character) (dt : ℚ) :
    (c.updateAbilities dt).rageCooldown =
      (if c.ctype = CharType.berserker ∧ c.rageCooldown > 0 then
        c.rageCooldown - dt else c.rageCooldown) := by
  unfold Character.updateAbilities Character.updateRage
  split_ifs <;> simp_all

/-- C5 (amended): on a tick update of a living combatant, the attack,
block and dash cooldowns and the stun and invulnerability timers each
decrease by dt and clamp at 0; the berserker's rage duration and rage
cooldown instead decrement by dt without clamping whenever positive (so
they can go negative) and are untouched otherwise, and are only updated
for the berserker archetype at all. -/
theorem update_timers_clamped_amended (c : Character) (dt : ℚ)
    (hdead : c.isDead = false) (_hdt : 0 ≤ dt) :
    (c.update dt).attackCooldown = max 0 (c.attackCooldown - dt) ∧
    (c.update dt).blockCooldown = max 0 (c.blockCooldown - dt) ∧
    (c.update dt).dashCooldown = max 0 (c.dashCooldown - dt) ∧
    (c.update dt).stunDuration = max 0 (c.stunDuration - dt) ∧
    (c.update dt).invulnerabilityTime = max 0 (c.invulnerabilityTime - dt) ∧
    (c.update dt).rageDuration =
      (if c.ctype = CharType.berserker ∧ c.rageDuration > 0 then
        c.rageDuration - dt else c.rageDuration) ∧
    (c.update dt).rageCooldown =
      (if c.ctype = CharType.berserker ∧ c.rageCooldown > 0 then
        c.rageCooldown - dt else c.rageCooldown) := by
  rw [update_of_alive c dt hdead]
  split <;>
    refine ⟨?_, ?_, ?_, ?_, ?_, ?_, ?_⟩ <;>
      simp only [Character.die, updateAbilities_attackCooldown,
        updateAbilities_blockCooldown, updateAbilities_dashCooldown,
        updateAbilities_stunDuration, updateAbilities_invulnerabilityTime,
        updateAbilities_rageDuration, updateAbilities_rageCooldown,
        Character.updatePosition, Character.updateTimers]

/-- C5 witness: the amended clamping law instantiated on a concrete living
berserker with dt = 1/2. -/
theorem update_timers_clamped_amended_witness :
    demoBerserker.isDead = false ∧ (0 : ℚ) ≤ 1/2 ∧
    (demoBerserker.update (1/2)).attackCooldown =
      max 0 (demoBerserker.attackCooldown - 1/2) :=
  ⟨rfl, by norm_num,
    (update_timers_clamped_amended demoBerserker (1/2) rfl (by norm_num)).1⟩

/-- C6: when `separateBodies` resolves a solid overlapping pair, a static
body is never displaced; two non-static bodies are displaced along the
collision normal in opposite directions, body 1 by (m2/(m1+m2))·overlap
and body 2 by (m1/(m1+m2))·overlap; and against a static partner the
non-static body absorbs the full overlap.  (The mass-sum positivity
hypothesis reflects that the JS expression is meaningful only for positive
total mass.) -/
theorem separateBodies_mass_proportional (a b : PBody) (col : Collision)
    (_hmass : 0 < a.mass + b.mass) :
    (a.isStatic = true → (separateBodies a b col).1 = a) ∧
    (b.isStatic = true → (separateBodies a b col).2 = b) ∧
    (a.isStatic = false → b.isStatic = false →
      (separateBodies a b col).1.x =
        a.x - b.mass / (a.mass + b.mass) * col.overlap * col.normalX ∧
      (separateBodies a b col).1.y =
        a.y - b.mass / (a.mass + b.mass) * col.overlap * col.normalY ∧
      (separateBodies a b col).2.x =
        b.x + a.mass / (a.mass + b.mass) * col.overlap * col.normalX ∧
      (separateBodies a b col).2.y =
        b.y + a.mass / (a.mass + b.mass) * col.overlap * col.normalY) ∧
    (a.isStatic = false → b.isStatic = true →
      (separateBodies a b col).1.x = a.x - col.overlap * col.normalX ∧
      (separateBodies a b col).1.y = a.y - col.overlap * col.normalY) ∧
    (b.isStatic = false → a.isStatic = true →
      (separateBodies a b col).2.x = b.x + col.overlap * col.normalX ∧
      (separateBodies a b col).2.y = b.y + col.overlap * col.normalY) := by
  refine ⟨fun ha => ?_, fun hb => ?_, fun ha hb => ?_, fun ha hb => ?_,
    fun hb ha => ?_⟩
  · simp [separateBodies, ha]
  · simp [separateBodies, hb]
  · simp [separateBodies, ha, hb]
  · simp [separateBodies, ha, hb]
  · simp [separateBodies, ha, hb]

/-- C6 witness: masses 1 and 3, overlap 8 along the X normal: body 1 moves
by 6 = (3/4)·8 and body 2 by 2 = (1/4)·8 in the opposite direction. -/
theorem separateBodies_mass_proportional_witness :
    ((0 : ℚ) < demoBodyA.mass + demoBodyB.mass ∧
      demoBodyA.isStatic = false ∧ demoBodyB.isStatic = false) ∧
    (separateBodies demoBodyA demoBodyB demoCollision).1.x =
      demoBodyA.x - demoBodyB.mass / (demoBodyA.mass + demoBodyB.mass) *
        demoCollision.overlap * demoCollision.normalX :=
  ⟨⟨by norm_num [demoBodyA, demoBodyB], rfl, rfl⟩,
    ((separateBodies_mass_proportional demoBodyA demoBodyB demoCollision
      (by norm_num [demoBodyA, demoBodyB])).2.2.1 rfl rfl).1⟩

/-- C10: `stopBlock` is accepted unconditionally — in every combatant
state (stunned, dead, or not blocking included, since the statement
quantifies over all states) it clears `isBlocking`, restarts the block
cooldown to the block ability's cooldown value, mutates no other field,
and is idempotent, so repeated calls keep the block cooldown pinned at its
full value without the combatant ever having blocked. -/
theorem stopBlock_unconditional (c : Character) :
    c.stopBlock.isBlocking = false ∧
    c.stopBlock.blockCooldown = c.abilities.block.cooldown ∧
    c.stopBlock.stopBlock = c.stopBlock ∧
    c.stopBlock.id = c.id ∧
    c.stopBlock.ctype = c.ctype ∧
    c.stopBlock.x = c.x ∧
    c.stopBlock.y = c.y ∧
    c.stopBlock.width = c.width ∧
    c.stopBlock.height = c.height ∧
    c.stopBlock.vx = c.vx ∧
    c.stopBlock.vy = c.vy ∧
    c.stopBlock.bodyX = c.bodyX ∧
    c.stopBlock.bodyY = c.bodyY ∧
    c.stopBlock.bodyVX = c.bodyVX ∧
    c.stopBlock.bodyVY = c.bodyVY ∧
    c.stopBlock.grounded = c.grounded ∧
    c.stopBlock.isGrounded = c.isGrounded ∧
    c.stopBlock.maxHealth = c.maxHealth ∧
    c.stopBlock.health = c.health ∧
    c.stopBlock.speed = c.speed ∧
    c.stopBlock.defense = c.defense ∧
    c.stopBlock.facingRight = c.facingRight ∧
    c.stopBlock.isAttacking = c.isAttacking ∧
    c.stopBlock.isDashing = c.isDashing ∧
    c.stopBlock.isStunned = c.isStunned ∧
    c.stopBlock.isDead = c.isDead ∧
    c.stopBlock.rageActive = c.rageActive ∧
    c.stopBlock.attackCooldown = c.attackCooldown ∧
    c.stopBlock.dashCooldown = c.dashCooldown ∧
    c.stopBlock.stunDuration = c.stunDuration ∧
    c.stopBlock.invulnerabilityTime = c.invulnerabilityTime ∧
    c.stopBlock.rageDuration = c.rageDuration ∧
    c.stopBlock.rageCooldown = c.rageCooldown ∧
    c.stopBlock.abilities = c.abilities :=
  ⟨rfl, rfl, rfl, rfl, rfl, rfl, rfl, rfl, rfl, rfl, rfl, rfl, rfl, rfl,
   rfl, rfl, rfl, rfl, rfl, rfl, rfl, rfl, rfl, rfl, rfl, rfl, rfl, rfl,
   rfl, rfl, rfl, rfl, rfl, rfl⟩

theorem update_health_alive (c : Character) (dt : ℚ)
    (hdead : c.isDead = false) (hpos : 0 < c.health) :
    (c.update dt).health = c.health := by
  rw [update_of_alive c dt hdead]
  have hh : ((c.updateTimers dt).updatePosition.updateAbilities dt).health =
      c.health := by
    rw [updateAbilities_health, updatePosition_health, updateTimers_health]
  rw [if_neg]
  · exact hh
  · intro hcon
    rw [hh] at hcon
    exact absurd hpos (not_lt.2 hcon.1)

/-- C8: when the countdown crosses 0 on a tick while both combatants are
still alive, the battle ends (`isPlaying` false, clock pinned at 0) and
the winner recorded by `endBattle` is the combatant with strictly greater
health, with a draw exactly when the two healths are equal. -/
theorem timeout_higher_health_wins (s : GameState) (dt : ℚ)
    (hplay : s.isPlaying = true) (ht : 0 < s.timeRemaining)
    (hout : s.timeRemaining - dt ≤ 0)
    (_hp : 0 < (s.player.update dt).health)
    (_ho : 0 < (s.opponent.update dt).health) :
    (GameEngine.update s dt).isPlaying = false ∧
    (GameEngine.update s dt).timeRemaining = 0 ∧
    ((s.opponent.update dt).health < (s.player.update dt).health →
      (GameEngine.update s dt).winner = some Winner.player) ∧
    ((s.player.update dt).health < (s.opponent.update dt).health →
      (GameEngine.update s dt).winner = some Winner.opponent) ∧
    ((GameEngine.update s dt).winner = some Winner.draw ↔
      (s.player.update dt).health = (s.opponent.update dt).health) := by
  have hcond : s.isPlaying = true ∧ s.timeRemaining > 0 := ⟨hplay, ht⟩
  unfold GameEngine.update GameEngine.endBattle
  rw [if_pos hcond, if_pos hout]
  refine ⟨rfl, rfl, ?_, ?_, ?_⟩
  · intro h
    simp only [if_pos h]
  · intro h
    rw [if_neg (asymm h), if_pos h]
  · constructor
    · intro hw
      rcases lt_trichotomy ((s.player.update dt).health)
        ((s.opponent.update dt).health) with h1 | h1 | h1
      · rw [if_neg (asymm h1), if_pos h1] at hw
        exact absurd (Option.some.inj hw) (by intro hc; cases hc)
      · exact h1
      · rw [if_pos h1] at hw
        exact absurd (Option.some.inj hw) (by intro hc; cases hc)
    · intro he
      rw [if_neg (by rw [he]; exact lt_irrefl _),
          if_neg (by rw [he]; exact lt_irrefl _)]

/-- C8 witness: a match one tick from timeout with the player at 85 HP and
the opponent at 40 HP ends with the player declared winner. -/
theorem timeout_higher_health_wins_witness :
    (demoTimeoutState.isPlaying = true ∧ (0 : ℚ) < demoTimeoutState.timeRemaining ∧
      demoTimeoutState.timeRemaining - 1 ≤ 0 ∧
      0 < (demoTimeoutState.player.update 1).health ∧
      0 < (demoTimeoutState.opponent.update 1).health) ∧
    (GameEngine.update demoTimeoutState 1).winner = some Winner.player := by
  have hp : (demoTimeoutState.player.update 1).health = 85 := by
    rw [update_health_alive _ _ rfl (by norm_num [demoTimeoutState, demoChar])]
    norm_num [demoTimeoutState, demoChar]
  have ho : (demoTimeoutState.opponent.update 1).health = 40 := by
    rw [update_health_alive _ _ rfl (by norm_num [demoTimeoutState, demoChar])]
    norm_num [demoTimeoutState, demoChar]
  refine ⟨⟨rfl, by norm_num [demoTimeoutState], by norm_num [demoTimeoutState],
    by rw [hp]; norm_num, by rw [ho]; norm_num⟩, ?_⟩
  exact (timeout_higher_health_wins demoTimeoutState 1 rfl
      (by norm_num [demoTimeoutState]) (by norm_num [demoTimeoutState])
      (by rw [hp]; norm_num) (by rw [ho]; norm_num)).2.2.1
    (by rw [hp, ho]; norm_num)

/-- C9 counterexample: a character-layer body distinct from the attacker
whose center (88, 58) lies inside the forward attack rectangle
[40, 90] × [0, 60] of a 50-range attack, yet which the hit query does not
select — `attack` queries a disc of radius range/2 = 25 around the
rectangle's center (65, 30) and the body's center is at squared distance
1313 > 625 from it, so the body takes no damage. -/
theorem attack_window_cex :
    specRectContains demoAttacker baseAbilities.lightAttack
      (centerX demoCornerBody) (centerY demoCornerBody) ∧
    demoCornerBody.layer = "character" ∧
    demoCornerBody.id ≠ demoAttacker.id ∧
    attackHitBodies demoAttacker baseAbilities.lightAttack [demoCornerBody] = [] := by
  refine ⟨?_, rfl, by decide, ?_⟩
  · unfold specRectContains attackRectX attackRectY centerX centerY
    norm_num [demoAttacker, demoChar, baseAbilities, demoCornerBody]
  · unfold attackHitBodies getBodiesInRadius withinRadius distSq
      attackCenterX attackCenterY attackRectX attackRectY centerX centerY
    norm_num [demoAttacker, demoChar, baseAbilities, demoCornerBody,
      List.filter]

/-- C9 (amended): a successful attack resolves damage against exactly the
character-layer bodies other than the attacker whose center lies within
distance range/2 of the center of the forward-facing rectangle (the
inscribed disc of the rectangle's width), not against the bodies inside
the rectangle itself. -/
theorem attack_hits_disc_iff (c : Character) (ab : Ability)
    (bodies : List PBody) (b : PBody) :
    b ∈ attackHitBodies c ab bodies ↔
      (b ∈ bodies ∧ b.layer = "character" ∧ b.id ≠ c.id ∧ 0 ≤ ab.range / 2 ∧
        distSq (centerX b) (centerY b) (attackCenterX c ab) (attackCenterY c) ≤
          (ab.range / 2) ^ 2) := by
  unfold attackHitBodies getBodiesInRadius withinRadius
  simp only [List.mem_filter, Bool.and_eq_true, decide_eq_true_eq]
  tauto

/-- C4 failing-input evaluation: one full iteration of the driving loop
(`gameLoop` → capped dt → `GameEngine.update`) on a running match whose
player body has horizontal velocity 100 px/s leaves the body's position
(and velocity) unchanged: the loop updates only the registered game
objects (the two combatants — the arena object was cleared from
`gameObjects` by `gameEngine.reset()` before they were added) and the
countdown; `PhysicsEngine.update` — the only routine that applies
gravity, friction, velocity×dt integration, bounds clamping and pairwise
collision handling — has no caller anywhere in the repository, so no
physics step runs and positions never advance by velocity×dt. -/
theorem gameLoop_no_physics_step :
    demoLoopState.player.bodyVX = 100 ∧
    demoLoopState.player.bodyX = 150 ∧
    (gameLoopStep demoLoopState (1/10)).player.bodyX = 150 ∧
    (gameLoopStep demoLoopState (1/10)).player.bodyVX = 100 := by
  refine ⟨rfl, rfl, ?_, ?_⟩ <;>
    norm_num [gameLoopStep, GameEngine.update, GameEngine.endBattle,
      Character.update, Character.updateTimers, Character.updatePosition,
      Character.updateAbilities, Character.updateRage, Character.die,
      demoLoopState, demoChar, baseAbilities]

/-- C7 failing-input evaluation: a trigger pair that overlaps on tick 1,
separates on tick 2 and overlaps again on tick 3 fires `onTriggerEnter`
only on tick 1 — the enter notification fires on the tick an overlap
begins and not while it persists, but because `cleanupCollisions` is
never invoked the trigger's `collidingWith` set is never pruned, so the
re-overlap on tick 3 does not fire again (the claim says it must). -/
theorem trigger_enter_never_rearmed :
    runTriggerTicks { collidingWith := [] } "player" [true, false, true] =
      [true, false, false] := by
  rfl
